import Mathlib

/-!
Shallow embedding of the MeiliSearch-backed `EventSearchRepository` of the
nostr-relay service, together with theorems about its behaviour.

Modelling conventions:
- JavaScript numbers that hold timestamps, kinds and limits are embedded as
  `Int`; the per-hit ranking score (a normalized 0..1 value) as `ℚ`.
- `getTimestampInSeconds()` (the current wall clock, read inside
  `buildSearchFilters`) is passed explicitly as the `now : Int` argument.
- Optional (possibly `undefined`/`null`) values are `Option`s; JavaScript
  truthiness tests on them are made explicit (`truthyList`, `truthyNum`,
  `truthyStr`).
- The repository's network effects are made observable: each operation
  returns, next to its result, the list of `EngineCall`s it issued.  An
  operation that can throw is embedded in `Except String`; the engine's
  behaviour (search hits, and whether a write call succeeds or throws) is an
  explicit `EngineBehavior` argument.
-/

/-- The canonical event model (fields as read and written by this layer). -/
structure Event where
  id : String
  pubkey : String
  author : String
  createdAt : Int
  kind : Int
  tags : List (List String)
  genericTags : List String
  content : String
  sig : String
  expiredAt : Option Int
  dTagValue : Option String
  deriving DecidableEq

/-- The flat document schema stored in the `events` index (type `EventDocument`). -/
structure EventDocument where
  id : String
  pubkey : String
  author : String
  createdAt : Int
  kind : Int
  tags : List (List String)
  genericTags : List String
  content : String
  sig : String
  expiredAt : Option Int
  dTagValue : Option String
  deriving DecidableEq

/-- The fields of `SearchFilter` picked by `EventSearchRepositoryFilter`.
(`searchOptions` is also picked in the source but never read by any code
path of this repository class, so it is omitted here.)
The source field `until` is embedded as `untilTime`, `until` being a
reserved word in Lean. -/
structure EventSearchRepositoryFilter where
  ids : Option (List String)
  authors : Option (List String)
  dTagValues : Option (List String)
  genericTagsCollection : Option (List (List String))
  kinds : Option (List Int)
  limit : Option Int
  search : Option String
  since : Option Int
  untilTime : Option Int
  deriving DecidableEq

/-- Scored search result, `TEventIdWithScore`. -/
structure TEventIdWithScore where
  id : String
  score : ℚ
  deriving DecidableEq

/-- Settings payload of `index.updateSettings`. -/
structure IndexSettings where
  searchableAttributes : List String
  filterableAttributes : List String
  sortableAttributes : List String
  rankingRules : List String
  deriving DecidableEq

/-- Options object passed to `index.search`. -/
structure MeiliSearchParams where
  limit : Int
  filter : List String
  sort : Option (List String)
  attributesToRetrieve : Option (List String)
  showRankingScore : Bool
  deriving DecidableEq

/-- One network call to the search engine. -/
inductive EngineCall where
  | updateSettings (settings : IndexSettings)
  | search (query : Option String) (params : MeiliSearchParams)
  | addDocuments (docs : List EventDocument)
  | deleteDocuments (ids : List String)
  deriving DecidableEq

/-- A hit as consumed by `findTopIdsWithScore` (`attributesToRetrieve` limits
it to `id` and `createdAt`; `_rankingScore` is present when the engine
supplies one). -/
structure ScoredHit where
  id : String
  createdAt : Int
  rankingScore : Option ℚ
  deriving DecidableEq

/-- The engine's behaviour for one interaction: the hits a search returns,
and whether each write call succeeds or throws. -/
structure EngineBehavior where
  searchDocs : List EventDocument
  scoredHits : List ScoredHit
  addResult : Except String Unit
  deleteResult : Except String Unit

/-- Observable effects of an operation: engine calls issued, errors logged. -/
structure Effects where
  calls : List EngineCall
  logged : List String
  deriving DecidableEq

/-- Repository state fixed at construction: whether `this.index` was set
(both `host` and `apiKey` configured) and the configured sync kinds. -/
structure EventSearchRepository where
  index : Bool
  syncEventKinds : List Int
  deriving DecidableEq

/-- JavaScript truthiness of `o?.length` for an optional array. -/
def truthyList {α : Type} : Option (List α) → Bool
  | none => false
  | some l => !l.isEmpty

/-- JavaScript truthiness of an optional number (`undefined` and `0` are falsy). -/
def truthyNum : Option Int → Bool
  | none => false
  | some n => n != 0

/-- JavaScript truthiness of an optional string (`undefined` and the empty
string are falsy). -/
def truthyStr : Option String → Bool
  | none => false
  | some s => !s.isEmpty

namespace EventSearchRepository

/-- Clause `expiredAt IS NULL OR expiredAt >= ${getTimestampInSeconds()}`. -/
def timeValidityClause (now : Int) : String :=
  "expiredAt IS NULL OR expiredAt >= " ++ toString now

/-- Clause `id IN [${filter.ids.join(', ')}]`. -/
def idClause (ids : List String) : String :=
  "id IN [" ++ (String.intercalate ", " ids ++ "]")

/-- Clause `kind IN [${filter.kinds.join(', ')}]`. -/
def kindClause (kinds : List Int) : String :=
  "kind IN [" ++ (String.intercalate ", " (kinds.map toString) ++ "]")

/-- Clause `createdAt >= ${filter.since}`. -/
def sinceClause (since : Int) : String :=
  "createdAt >= " ++ toString since

/-- Clause `createdAt <= ${filter.until}`. -/
def untilClause (u : Int) : String :=
  "createdAt <= " ++ toString u

/-- Clause `author IN [${filter.authors.join(', ')}]`. -/
def authorClause (authors : List String) : String :=
  "author IN [" ++ (String.intercalate ", " authors ++ "]")

/-- Clause `genericTags IN [${genericTags.join(', ')}]`, one per group. -/
def genericTagsClause (genericTags : List String) : String :=
  "genericTags IN [" ++ (String.intercalate ", " genericTags ++ "]")

/-- Clause `dTagValue IN [${filter.dTagValues.join(', ')}]`. -/
def dTagValueClause (dTagValues : List String) : String :=
  "dTagValue IN [" ++ (String.intercalate ", " dTagValues ++ "]")

/-- `private buildSearchFilters(filter)`: the pushes onto `searchFilters`,
in source order, with each JavaScript truthiness guard made explicit. -/
def buildSearchFilters (now : Int) (filter : EventSearchRepositoryFilter) :
    List String :=
  [timeValidityClause now]
    ++ (if truthyList filter.ids then [idClause (filter.ids.getD [])] else [])
    ++ (if truthyList filter.kinds then [kindClause (filter.kinds.getD [])] else [])
    ++ (if truthyNum filter.since then [sinceClause (filter.since.getD 0)] else [])
    ++ (if truthyNum filter.untilTime then [untilClause (filter.untilTime.getD 0)] else [])
    ++ (if truthyList filter.authors then [authorClause (filter.authors.getD [])] else [])
    ++ (if truthyList filter.genericTagsCollection then
          (filter.genericTagsCollection.getD []).map genericTagsClause
        else [])
    ++ (if truthyList filter.dTagValues then [dTagValueClause (filter.dTagValues.getD [])] else [])

/-- `private getLimitFrom(filter, defaultLimit = 100)`:
`Math.min(isNil(filter.limit) ? defaultLimit : filter.limit, 1000)`.
(Call sites in the source use the default `defaultLimit = 100`.) -/
def getLimitFrom (filter : EventSearchRepositoryFilter) (defaultLimit : Int) : Int :=
  min (match filter.limit with | none => defaultLimit | some l => l) 1000

/-- `private toEventDocument(event)`. -/
def toEventDocument (event : Event) : EventDocument :=
  { id := event.id
    pubkey := event.pubkey
    createdAt := event.createdAt
    kind := event.kind
    tags := event.tags
    genericTags := event.genericTags
    content := event.content
    sig := event.sig
    expiredAt := event.expiredAt
    author := event.author
    dTagValue := event.dTagValue }

/-- `private toEvent(eventDocument)`. -/
def toEvent (eventDocument : EventDocument) : Event :=
  { id := eventDocument.id
    pubkey := eventDocument.pubkey
    createdAt := eventDocument.createdAt
    kind := eventDocument.kind
    tags := eventDocument.tags
    content := eventDocument.content
    sig := eventDocument.sig
    expiredAt := eventDocument.expiredAt
    genericTags := eventDocument.genericTags
    dTagValue := eventDocument.dTagValue
    author := eventDocument.author }

/-- Settings declared by `onApplicationBootstrap`. -/
def eventsIndexSettings : IndexSettings :=
  { searchableAttributes := ["content"]
    filterableAttributes :=
      ["id", "author", "createdAt", "kind", "genericTags", "delegator",
        "expiredAt", "dTagValue"]
    sortableAttributes := ["createdAt"]
    rankingRules :=
      ["sort", "words", "typo", "proximity", "attribute", "exactness",
        "createdAt:desc"] }

/-- `async onApplicationBootstrap()`: declares the index settings once,
skipped entirely when `this.index` is unset. -/
def onApplicationBootstrap (repo : EventSearchRepository) : Effects :=
  if !repo.index then ⟨[], []⟩
  else ⟨[EngineCall.updateSettings eventsIndexSettings], []⟩

/-- `async find(filter)`: short-circuits when disabled or when the resolved
limit is 0; otherwise issues one search (sorted by `createdAt:desc`) and
hydrates every hit through `toEvent`. -/
def find (repo : EventSearchRepository) (engine : EngineBehavior) (now : Int)
    (filter : EventSearchRepositoryFilter) : List Event × List EngineCall :=
  if !repo.index then ([], [])
  else
    let limit := getLimitFrom filter 100
    if limit = 0 then ([], [])
    else
      let searchFilters := buildSearchFilters now filter
      (engine.searchDocs.map toEvent,
        [EngineCall.search filter.search
          ⟨limit, searchFilters, some ["createdAt:desc"], none, false⟩])

/-- `async findTopIdsWithScore(filter)`: same setup as `find`, but retrieves
only `id` and `createdAt` with ranking scores, and maps each hit to
`{ id, score: hit.createdAt * (1 + (hit._rankingScore ?? 0)) }`. -/
def findTopIdsWithScore (repo : EventSearchRepository) (engine : EngineBehavior)
    (now : Int) (filter : EventSearchRepositoryFilter) :
    List TEventIdWithScore × List EngineCall :=
  if !repo.index then ([], [])
  else
    let limit := getLimitFrom filter 100
    if limit = 0 then ([], [])
    else
      let searchFilters := buildSearchFilters now filter
      (engine.scoredHits.map (fun hit =>
          ⟨hit.id, (hit.createdAt : ℚ) * (1 + hit.rankingScore.getD 0)⟩),
        [EngineCall.search filter.search
          ⟨limit, searchFilters, none, some ["id", "createdAt"], true⟩])

/-- `async add(event)`: skipped when disabled or when the kind is not in
`syncEventKinds`; otherwise upserts one mapped document, catching and
logging any engine error (the returned value is always `Except.ok`). -/
def add (repo : EventSearchRepository) (engine : EngineBehavior)
    (event : Event) : Except String Effects :=
  if !repo.index || !(repo.syncEventKinds.contains event.kind) then
    Except.ok ⟨[], []⟩
  else
    match engine.addResult with
    | Except.ok _ =>
        Except.ok ⟨[EngineCall.addDocuments [toEventDocument event]], []⟩
    | Except.error e =>
        Except.ok ⟨[EngineCall.addDocuments [toEventDocument event]], [e]⟩

/-- `async deleteMany(eventIds)`: skipped when disabled; otherwise deletes
the documents, catching and logging any engine error. -/
def deleteMany (repo : EventSearchRepository) (engine : EngineBehavior)
    (eventIds : List String) : Except String Effects :=
  if !repo.index then Except.ok ⟨[], []⟩
  else
    match engine.deleteResult with
    | Except.ok _ => Except.ok ⟨[EngineCall.deleteDocuments eventIds], []⟩
    | Except.error e => Except.ok ⟨[EngineCall.deleteDocuments eventIds], [e]⟩

/-- `async replace(event, oldEventId?)`: `Promise.all` of the add and —
guarded by the JavaScript truthiness test `oldEventId ?`, under which both
`undefined` and the empty string are falsy — the delete; both sub-calls are
evaluated, their effects combined, and a rejection of either would reject
the whole. -/
def replace (repo : EventSearchRepository) (engine : EngineBehavior)
    (event : Event) (oldEventId : Option String) : Except String Effects :=
  if !repo.index then Except.ok ⟨[], []⟩
  else
    match add repo engine event,
        (if truthyStr oldEventId then
          deleteMany repo engine [oldEventId.getD ""]
        else Except.ok ⟨[], []⟩) with
    | Except.ok a, Except.ok d =>
        Except.ok ⟨a.calls ++ d.calls, a.logged ++ d.logged⟩
    | Except.error e, _ => Except.error e
    | Except.ok _, Except.error e => Except.error e

end EventSearchRepository

open EventSearchRepository

/-! ## Clause classification

The spec speaks about kinds of clauses (`genericTags` membership clauses,
`createdAt` range clauses).  A clause kind is recognized by its fixed
leading text, checked on the underlying character list. -/

/-- Does `s` start with `pre`? (checked on the underlying character lists). -/
def strStarts (pre s : String) : Bool := pre.data.isPrefixOf s.data

/-- A `genericTags` membership clause. -/
def isGenericTagsClause (c : String) : Bool := strStarts "genericTags IN [" c

/-- A lower time-range clause (`createdAt >= ...`). -/
def isSinceClause (c : String) : Bool := strStarts "createdAt >= " c

/-- An upper time-range clause (`createdAt <= ...`). -/
def isUntilClause (c : String) : Bool := strStarts "createdAt <= " c

theorem isPrefixOf_self_append {α : Type} [BEq α] [LawfulBEq α] :
    ∀ (q t : List α), q.isPrefixOf (q ++ t) = true := by
  intro q t
  induction q with
  | nil => simp [List.isPrefixOf]
  | cons a as ih => simp [List.isPrefixOf, ih]

theorem strStarts_append (pre t : String) : strStarts pre (pre ++ t) = true := by
  simp [strStarts, String.data_append, isPrefixOf_self_append]

namespace EventSearchRepository

theorem gtc_self (g : List String) :
    isGenericTagsClause (genericTagsClause g) = true :=
  strStarts_append "genericTags IN [" _

theorem gtc_time (now : Int) :
    isGenericTagsClause (timeValidityClause now) = false := by
  simp +decide [isGenericTagsClause, timeValidityClause, strStarts,
    String.data_append, List.isPrefixOf]

theorem gtc_id (ids : List String) : isGenericTagsClause (idClause ids) = false := by
  simp +decide [isGenericTagsClause, idClause, strStarts, String.data_append,
    List.isPrefixOf]

theorem gtc_kind (kinds : List Int) :
    isGenericTagsClause (kindClause kinds) = false := by
  simp +decide [isGenericTagsClause, kindClause, strStarts, String.data_append,
    List.isPrefixOf]

theorem gtc_since (n : Int) : isGenericTagsClause (sinceClause n) = false := by
  simp +decide [isGenericTagsClause, sinceClause, strStarts, String.data_append,
    List.isPrefixOf]

theorem gtc_until (n : Int) : isGenericTagsClause (untilClause n) = false := by
  simp +decide [isGenericTagsClause, untilClause, strStarts, String.data_append,
    List.isPrefixOf]

theorem gtc_author (authors : List String) :
    isGenericTagsClause (authorClause authors) = false := by
  simp +decide [isGenericTagsClause, authorClause, strStarts, String.data_append,
    List.isPrefixOf]

theorem gtc_dTag (vs : List String) :
    isGenericTagsClause (dTagValueClause vs) = false := by
  simp +decide [isGenericTagsClause, dTagValueClause, strStarts,
    String.data_append, List.isPrefixOf]

theorem sc_self (n : Int) : isSinceClause (sinceClause n) = true :=
  strStarts_append "createdAt >= " _

theorem sc_time (now : Int) : isSinceClause (timeValidityClause now) = false := by
  simp +decide [isSinceClause, timeValidityClause, strStarts, String.data_append,
    List.isPrefixOf]

theorem sc_id (ids : List String) : isSinceClause (idClause ids) = false := by
  simp +decide [isSinceClause, idClause, strStarts, String.data_append,
    List.isPrefixOf]

theorem sc_kind (kinds : List Int) : isSinceClause (kindClause kinds) = false := by
  simp +decide [isSinceClause, kindClause, strStarts, String.data_append,
    List.isPrefixOf]

theorem sc_until (n : Int) : isSinceClause (untilClause n) = false := by
  simp +decide [isSinceClause, untilClause, strStarts, String.data_append,
    List.isPrefixOf]

theorem sc_author (authors : List String) :
    isSinceClause (authorClause authors) = false := by
  simp +decide [isSinceClause, authorClause, strStarts, String.data_append,
    List.isPrefixOf]

theorem sc_gt (g : List String) : isSinceClause (genericTagsClause g) = false := by
  simp +decide [isSinceClause, genericTagsClause, strStarts, String.data_append,
    List.isPrefixOf]

theorem sc_dTag (vs : List String) : isSinceClause (dTagValueClause vs) = false := by
  simp +decide [isSinceClause, dTagValueClause, strStarts, String.data_append,
    List.isPrefixOf]

theorem uc_self (n : Int) : isUntilClause (untilClause n) = true :=
  strStarts_append "createdAt <= " _

theorem uc_time (now : Int) : isUntilClause (timeValidityClause now) = false := by
  simp +decide [isUntilClause, timeValidityClause, strStarts, String.data_append,
    List.isPrefixOf]

theorem uc_id (ids : List String) : isUntilClause (idClause ids) = false := by
  simp +decide [isUntilClause, idClause, strStarts, String.data_append,
    List.isPrefixOf]

theorem uc_kind (kinds : List Int) : isUntilClause (kindClause kinds) = false := by
  simp +decide [isUntilClause, kindClause, strStarts, String.data_append,
    List.isPrefixOf]

theorem uc_since (n : Int) : isUntilClause (sinceClause n) = false := by
  simp +decide [isUntilClause, sinceClause, strStarts, String.data_append,
    List.isPrefixOf]

theorem uc_author (authors : List String) :
    isUntilClause (authorClause authors) = false := by
  simp +decide [isUntilClause, authorClause, strStarts, String.data_append,
    List.isPrefixOf]

theorem uc_gt (g : List String) : isUntilClause (genericTagsClause g) = false := by
  simp +decide [isUntilClause, genericTagsClause, strStarts, String.data_append,
    List.isPrefixOf]

theorem uc_dTag (vs : List String) : isUntilClause (dTagValueClause vs) = false := by
  simp +decide [isUntilClause, dTagValueClause, strStarts, String.data_append,
    List.isPrefixOf]

end EventSearchRepository

/-! ## Generic helpers for filtering one optional-clause segment -/

theorem filter_ifSingleton (p : String → Bool) (g : Bool) (c : String)
    (h : p c = false) :
    List.filter p (if g then [c] else []) = [] := by
  cases g <;> simp [h]

theorem filter_ifSingleton_pos (p : String → Bool) (g : Bool) (c : String)
    (h : p c = true) :
    List.filter p (if g then [c] else []) = if g then [c] else [] := by
  cases g <;> simp [h]

namespace EventSearchRepository

theorem filter_gt_map (L : List (List String)) :
    (L.map genericTagsClause).filter isGenericTagsClause
      = L.map genericTagsClause := by
  refine List.filter_eq_self.mpr ?_
  intro a ha
  obtain ⟨g, _, rfl⟩ := List.mem_map.mp ha
  exact gtc_self g

theorem filter_sc_gt_map (L : List (List String)) :
    (L.map genericTagsClause).filter isSinceClause = [] := by
  refine List.filter_eq_nil_iff.mpr ?_
  intro a ha
  obtain ⟨g, _, rfl⟩ := List.mem_map.mp ha
  simp [sc_gt]

theorem filter_uc_gt_map (L : List (List String)) :
    (L.map genericTagsClause).filter isUntilClause = [] := by
  refine List.filter_eq_nil_iff.mpr ?_
  intro a ha
  obtain ⟨g, _, rfl⟩ := List.mem_map.mp ha
  simp [uc_gt]

theorem gt_segment_eq (o : Option (List (List String))) :
    (if truthyList o then (o.getD []).map genericTagsClause else [])
      = (o.getD []).map genericTagsClause := by
  cases o with
  | none => simp [truthyList]
  | some l => cases l <;> simp [truthyList]

end EventSearchRepository

/-- C1: for every filter, the `genericTags` membership clauses emitted by
`buildSearchFilters` are exactly one clause per group of
`genericTagsCollection`, in input order, each listing exactly that group's
values (joined with a comma inside one membership test). -/
theorem buildSearchFilters_genericTags_clauses
    (now : Int) (f : EventSearchRepositoryFilter) :
    (buildSearchFilters now f).filter isGenericTagsClause
      = (f.genericTagsCollection.getD []).map genericTagsClause := by
  unfold buildSearchFilters
  rw [gt_segment_eq f.genericTagsCollection]
  simp only [List.filter_append,
    filter_ifSingleton _ _ _ (gtc_id _),
    filter_ifSingleton _ _ _ (gtc_kind _),
    filter_ifSingleton _ _ _ (gtc_since _),
    filter_ifSingleton _ _ _ (gtc_until _),
    filter_ifSingleton _ _ _ (gtc_author _),
    filter_ifSingleton _ _ _ (gtc_dTag _),
    filter_gt_map]
  simp [gtc_time]

/-- C3: every clause list built by `buildSearchFilters` contains the
time-validity clause (`expiredAt IS NULL OR expiredAt >= now`); no filter
input can suppress it. -/
theorem buildSearchFilters_time_validity_always
    (now : Int) (f : EventSearchRepositoryFilter) :
    timeValidityClause now ∈ buildSearchFilters now f := by
  unfold buildSearchFilters
  simp

/-- C4: mapping an event to a document and back (`toEvent` after
`toEventDocument`) is the identity on `id`, `pubkey`, `kind`, `content`,
`sig`, `dTagValue` and `expiredAt`. -/
theorem toEvent_toEventDocument_roundtrip (e : Event) :
    (toEvent (toEventDocument e)).id = e.id
    ∧ (toEvent (toEventDocument e)).pubkey = e.pubkey
    ∧ (toEvent (toEventDocument e)).kind = e.kind
    ∧ (toEvent (toEventDocument e)).content = e.content
    ∧ (toEvent (toEventDocument e)).sig = e.sig
    ∧ (toEvent (toEventDocument e)).dTagValue = e.dTagValue
    ∧ (toEvent (toEventDocument e)).expiredAt = e.expiredAt :=
  ⟨rfl, rfl, rfl, rfl, rfl, rfl, rfl⟩

/-- C5 counterexample: a filter whose `since` is present but equal to `0`
(a falsy JavaScript number) gets no `createdAt >= ...` clause, refuting
"the clause is emitted if and only if `since` is present". -/
theorem since_zero_counterexample :
    ((⟨none, none, none, none, none, none, none, some 0, none⟩ :
        EventSearchRepositoryFilter).since.isSome = true)
    ∧ (buildSearchFilters 0
        (⟨none, none, none, none, none, none, none, some 0, none⟩ :
          EventSearchRepositoryFilter)).filter isSinceClause = []
    ∧ sinceClause 0 ∉ buildSearchFilters 0
        (⟨none, none, none, none, none, none, none, some 0, none⟩ :
          EventSearchRepositoryFilter) := by
  refine ⟨rfl, ?_, ?_⟩ <;> decide

/-- C5 amended: `buildSearchFilters` emits `createdAt >= since` if and only
if `since` is present and nonzero (JavaScript truthiness), and
`createdAt <= until` if and only if `until` is present and nonzero; when
emitted, each appears exactly once. -/
theorem range_clauses_iff_truthy (now : Int) (f : EventSearchRepositoryFilter) :
    ((buildSearchFilters now f).filter isSinceClause
      = if truthyNum f.since then [sinceClause (f.since.getD 0)] else [])
    ∧ ((buildSearchFilters now f).filter isUntilClause
      = if truthyNum f.untilTime then [untilClause (f.untilTime.getD 0)] else []) := by
  constructor
  · unfold buildSearchFilters
    rw [gt_segment_eq f.genericTagsCollection]
    simp only [List.filter_append,
      filter_ifSingleton _ _ _ (sc_id _),
      filter_ifSingleton _ _ _ (sc_kind _),
      filter_ifSingleton _ _ _ (sc_until _),
      filter_ifSingleton _ _ _ (sc_author _),
      filter_ifSingleton _ _ _ (sc_dTag _),
      filter_ifSingleton_pos _ _ _ (sc_self _),
      filter_sc_gt_map]
    simp [sc_time]
  · unfold buildSearchFilters
    rw [gt_segment_eq f.genericTagsCollection]
    simp only [List.filter_append,
      filter_ifSingleton _ _ _ (uc_id _),
      filter_ifSingleton _ _ _ (uc_kind _),
      filter_ifSingleton _ _ _ (uc_since _),
      filter_ifSingleton _ _ _ (uc_author _),
      filter_ifSingleton _ _ _ (uc_dTag _),
      filter_ifSingleton_pos _ _ _ (uc_self _),
      filter_uc_gt_map]
    simp [uc_time]

/-! ## Operation-level helpers and sample values for concrete witnesses -/

/-- The `limit` carried by an engine call, when it is a search call. -/
def searchLimit : EngineCall → Option Int
  | EngineCall.search _ p => some p.limit
  | _ => none

/-- The log entries produced by one caught write result. -/
def logsOf : Except String Unit → List String
  | Except.ok _ => []
  | Except.error e => [e]

namespace EventSearchRepository

theorem add_not_synced (repo : EventSearchRepository) (engine : EngineBehavior)
    (event : Event) (h : event.kind ∉ repo.syncEventKinds) :
    add repo engine event = Except.ok ⟨[], []⟩ := by
  have hc : repo.syncEventKinds.contains event.kind = false := by
    simpa using h
  unfold add
  rw [hc]
  simp

theorem add_synced (repo : EventSearchRepository) (engine : EngineBehavior)
    (event : Event) (hi : repo.index = true)
    (hk : event.kind ∈ repo.syncEventKinds) :
    add repo engine event
      = Except.ok ⟨[EngineCall.addDocuments [toEventDocument event]],
          logsOf engine.addResult⟩ := by
  have hc : repo.syncEventKinds.contains event.kind = true := by
    simpa using hk
  unfold add
  rw [hc, hi]
  cases h : engine.addResult <;> simp [h, logsOf]

theorem add_ok (repo : EventSearchRepository) (engine : EngineBehavior)
    (event : Event) : ∃ a, add repo engine event = Except.ok a := by
  unfold add
  split
  · exact ⟨_, rfl⟩
  · cases h : engine.addResult <;> exact ⟨_, rfl⟩

theorem deleteMany_enabled (repo : EventSearchRepository)
    (engine : EngineBehavior) (ids : List String) (hi : repo.index = true) :
    deleteMany repo engine ids
      = Except.ok ⟨[EngineCall.deleteDocuments ids], logsOf engine.deleteResult⟩ := by
  cases h : engine.deleteResult <;> simp [deleteMany, hi, h, logsOf]

end EventSearchRepository

/-- A sample event whose kind (1) is inside the sample allow-list. -/
def sampleEvent : Event :=
  ⟨"id1", "pk1", "pk1", 1000, 1, [["t", "nostr"]], ["t:nostr"], "hello world",
    "sig1", none, none⟩

/-- A sample event whose kind (5) is outside the sample allow-list. -/
def sampleEventKind5 : Event :=
  ⟨"id2", "pk2", "pk2", 2000, 5, [], [], "bye", "sig2", some 99, some "d"⟩

/-- A repository with the engine configured and allow-list `[1]`. -/
def repoOn : EventSearchRepository := ⟨true, [1]⟩

/-- A repository whose engine is not configured. -/
def repoOff : EventSearchRepository := ⟨false, [1]⟩

/-- An engine on which both write calls throw. -/
def engineFailing : EngineBehavior :=
  ⟨[], [], Except.error "addfail", Except.error "delfail"⟩

/-- An engine on which every call succeeds and searches return no hits. -/
def engineOk : EngineBehavior := ⟨[], [], Except.ok (), Except.ok ()⟩

/-- An engine returning two scored hits: `createdAt = 1000` with ranking
score `0.5`, and `createdAt = 1000` with no ranking score. -/
def engineScores : EngineBehavior :=
  ⟨[], [⟨"a", 1000, some (1/2)⟩, ⟨"b", 1000, none⟩],
    Except.ok (), Except.ok ()⟩

/-- A filter with no constraints at all. -/
def emptyFilter : EventSearchRepositoryFilter :=
  ⟨none, none, none, none, none, none, none, none, none⟩

/-- A filter with an explicit `limit` of `0`. -/
def limitZeroFilter : EventSearchRepositoryFilter :=
  ⟨none, none, none, none, none, some 0, none, none, none⟩

/-- C2: the resolved limit equals `min(limit ?? 100, 1000)`; when it is `0`,
`find` and `findTopIdsWithScore` return an empty sequence with no engine
call; and every search call either operation issues carries exactly that
limit. -/
theorem resolved_limit_spec (repo : EventSearchRepository)
    (engine : EngineBehavior) (now : Int) (f : EventSearchRepositoryFilter) :
    getLimitFrom f 100 = min (f.limit.getD 100) 1000
    ∧ (min (f.limit.getD 100) 1000 = 0 →
        find repo engine now f = ([], [])
        ∧ findTopIdsWithScore repo engine now f = ([], []))
    ∧ ∀ c ∈ (find repo engine now f).2 ++ (findTopIdsWithScore repo engine now f).2,
        searchLimit c = some (min (f.limit.getD 100) 1000) := by
  have hl : getLimitFrom f 100 = min (f.limit.getD 100) 1000 := by
    cases h : f.limit <;> simp [getLimitFrom, h]
  refine ⟨hl, ?_, ?_⟩
  · intro h0
    rw [← hl] at h0
    constructor <;> simp [find, findTopIdsWithScore, h0]
  · intro c hc
    rw [← hl]
    by_cases hi : repo.index
    · by_cases h0 : getLimitFrom f 100 = 0
      · simp [find, findTopIdsWithScore, hi, h0] at hc
      · simp [find, findTopIdsWithScore, hi, h0] at hc
        rcases hc with rfl | rfl <;> simp [searchLimit]
    · simp [find, findTopIdsWithScore, hi] at hc

/-- C2 witness: a filter with `limit = 0` resolves to limit `0`, and both
read operations return an empty result with no engine call. -/
theorem resolved_limit_spec_witness :
    find repoOn engineOk 7 limitZeroFilter = ([], [])
    ∧ findTopIdsWithScore repoOn engineOk 7 limitZeroFilter = ([], []) :=
  (resolved_limit_spec repoOn engineOk 7 limitZeroFilter).2.1 (by decide)

/-- C6: when the search runs, every hit is scored as
`createdAt * (1 + rankingScore)`, with the ranking score defaulting to `0`
when the engine supplies none. -/
theorem findTopIdsWithScore_score_formula (repo : EventSearchRepository)
    (engine : EngineBehavior) (now : Int) (f : EventSearchRepositoryFilter)
    (hi : repo.index = true) (h0 : getLimitFrom f 100 ≠ 0) :
    (findTopIdsWithScore repo engine now f).1
      = engine.scoredHits.map (fun hit =>
          ⟨hit.id, (hit.createdAt : ℚ) * (1 + hit.rankingScore.getD 0)⟩) := by
  simp [findTopIdsWithScore, hi, h0]

/-- C6 witness: a hit with `createdAt = 1000` and ranking score `0.5` scores
`1500`, and one with `createdAt = 1000` and no ranking score scores `1000`. -/
theorem findTopIdsWithScore_score_formula_witness :
    repoOn.index = true
    ∧ getLimitFrom emptyFilter 100 ≠ 0
    ∧ (findTopIdsWithScore repoOn engineScores 3 emptyFilter).1
        = [⟨"a", 1500⟩, ⟨"b", 1000⟩] := by
  refine ⟨rfl, by decide, ?_⟩
  rw [findTopIdsWithScore_score_formula repoOn engineScores 3 emptyFilter rfl
    (by decide)]
  show [(⟨"a", (1000 : ℚ) * (1 + 1/2)⟩ : TEventIdWithScore),
      ⟨"b", (1000 : ℚ) * (1 + 0)⟩] = [⟨"a", 1500⟩, ⟨"b", 1000⟩]
  norm_num

/-- C7: `add` for a kind outside the sync allow-list performs no engine call
and raises no error; for an allow-listed kind on an enabled repository it
upserts exactly the one mapped document, and an engine failure is caught
and logged, never propagated (the returned value is `Except.ok` in every
case). -/
theorem add_gate_and_error_isolation (repo : EventSearchRepository)
    (engine : EngineBehavior) (event : Event) :
    (event.kind ∉ repo.syncEventKinds →
      add repo engine event = Except.ok ⟨[], []⟩)
    ∧ (repo.index = true → event.kind ∈ repo.syncEventKinds →
        add repo engine event
          = Except.ok ⟨[EngineCall.addDocuments [toEventDocument event]],
              logsOf engine.addResult⟩) :=
  ⟨fun h => add_not_synced repo engine event h,
    fun hi hk => add_synced repo engine event hi hk⟩

/-- C7 witness: on an enabled repository with allow-list `[1]`, adding a
kind-5 event issues nothing, and adding a kind-1 event while the engine
throws issues the one upsert and logs the error without propagating it. -/
theorem add_gate_and_error_isolation_witness :
    add repoOn engineFailing sampleEventKind5 = Except.ok ⟨[], []⟩
    ∧ add repoOn engineFailing sampleEvent
        = Except.ok ⟨[EngineCall.addDocuments [toEventDocument sampleEvent]],
            ["addfail"]⟩ :=
  ⟨(add_gate_and_error_isolation repoOn engineFailing sampleEventKind5).1
      (by decide),
    (add_gate_and_error_isolation repoOn engineFailing sampleEvent).2
      rfl (by decide)⟩

/-- C8: when the engine is not configured, every public operation degrades
without error: both reads return an empty sequence with no engine call, and
`add`, `deleteMany`, `replace` and the startup settings declaration perform
no engine interaction. -/
theorem disabled_search_noop (repo : EventSearchRepository)
    (engine : EngineBehavior) (now : Int) (f : EventSearchRepositoryFilter)
    (event : Event) (ids : List String) (oldId : Option String)
    (h : repo.index = false) :
    find repo engine now f = ([], [])
    ∧ findTopIdsWithScore repo engine now f = ([], [])
    ∧ add repo engine event = Except.ok ⟨[], []⟩
    ∧ deleteMany repo engine ids = Except.ok ⟨[], []⟩
    ∧ replace repo engine event oldId = Except.ok ⟨[], []⟩
    ∧ onApplicationBootstrap repo = ⟨[], []⟩ := by
  refine ⟨?_, ?_, ?_, ?_, ?_, ?_⟩ <;>
    simp [find, findTopIdsWithScore, add, deleteMany, replace,
      onApplicationBootstrap, h]

/-- C8 witness: all six operations evaluated on a concrete unconfigured
repository. -/
theorem disabled_search_noop_witness :
    find repoOff engineFailing 9 emptyFilter = ([], [])
    ∧ findTopIdsWithScore repoOff engineFailing 9 emptyFilter = ([], [])
    ∧ add repoOff engineFailing sampleEvent = Except.ok ⟨[], []⟩
    ∧ deleteMany repoOff engineFailing ["x"] = Except.ok ⟨[], []⟩
    ∧ replace repoOff engineFailing sampleEvent (some "y") = Except.ok ⟨[], []⟩
    ∧ onApplicationBootstrap repoOff = ⟨[], []⟩ :=
  disabled_search_noop repoOff engineFailing 9 emptyFilter sampleEvent ["x"]
    (some "y") rfl

namespace EventSearchRepository

theorem truthyStr_of_ne (oldId : String) (hne : oldId ≠ "") :
    truthyStr (some oldId) = true := by
  cases h : oldId.isEmpty with
  | false => simp [truthyStr, h]
  | true => exact absurd ((String.isEmpty_iff oldId).mp h) hne

end EventSearchRepository

/-- C9 counterexample: an enabled `replace` with the old id `""` supplied —
falsy under the source's `oldEventId ?` guard — performs only the add: its
single engine call is the upsert, and no delete of the old id is attempted,
refuting the claim for every supplied old id. -/
theorem replace_empty_oldId_counterexample :
    (replace repoOn engineOk sampleEvent (some "")
      = Except.ok ⟨[EngineCall.addDocuments [toEventDocument sampleEvent]], []⟩)
    ∧ EngineCall.deleteDocuments [""]
        ∉ [EngineCall.addDocuments [toEventDocument sampleEvent]] :=
  ⟨rfl, by decide⟩

/-- C9 amended: on an enabled repository, `replace(event, oldId)` with a
non-empty old id supplied evaluates both the add of the event and the
delete of the old id — whatever the engine does, including throwing on
either or both writes — and completes with the two sub-calls' effects
combined.  (An empty-string old id is falsy under the source's
`oldEventId ?` guard, so its delete is skipped.) -/
theorem replace_attempts_both (repo : EventSearchRepository)
    (engine : EngineBehavior) (event : Event) (oldId : String)
    (h : repo.index = true) (hne : oldId ≠ "") :
    ∃ a d, add repo engine event = Except.ok a
      ∧ deleteMany repo engine [oldId] = Except.ok d
      ∧ replace repo engine event (some oldId)
          = Except.ok ⟨a.calls ++ d.calls, a.logged ++ d.logged⟩ := by
  obtain ⟨a, ha⟩ := add_ok repo engine event
  have hd := deleteMany_enabled repo engine [oldId] h
  have ht := truthyStr_of_ne oldId hne
  refine ⟨a, _, ha, hd, ?_⟩
  simp [replace, h, ha, hd, ht]

/-- C9 witness: with an engine on which both writes throw, `replace` with
the non-empty old id `"old1"` still performs both sub-calls and combines
their effects. -/
theorem replace_attempts_both_witness :
    ∃ a d, add repoOn engineFailing sampleEvent = Except.ok a
      ∧ deleteMany repoOn engineFailing ["old1"] = Except.ok d
      ∧ replace repoOn engineFailing sampleEvent (some "old1")
          = Except.ok ⟨a.calls ++ d.calls, a.logged ++ d.logged⟩ :=
  replace_attempts_both repoOn engineFailing sampleEvent "old1" rfl (by decide)

/-- C10 counterexample: an enabled `replace` with a kind-5 event (outside
allow-list `[1]`) and the old id `""` supplied issues zero engine calls —
the falsy old id skips the delete as well as the gate skipping the add —
refuting "the deletion is still attempted" for every supplied old id. -/
theorem replace_gated_empty_oldId_counterexample :
    replace repoOn engineOk sampleEventKind5 (some "") = Except.ok ⟨[], []⟩
    ∧ sampleEventKind5.kind ∉ repoOn.syncEventKinds
    ∧ repoOn.index = true :=
  ⟨rfl, by decide, rfl⟩

/-- C10 amended: on an enabled repository, when the event's kind is outside
the sync allow-list and a non-empty old id is supplied, `replace` still
attempts the deletion of the old id; the gate inside `add` skips only the
add, so the net engine interaction is exactly the one delete.  (An
empty-string old id is falsy under the source's `oldEventId ?` guard, so
then no engine call is made at all.) -/
theorem replace_kind_outside_allowlist (repo : EventSearchRepository)
    (engine : EngineBehavior) (event : Event) (oldId : String)
    (hi : repo.index = true) (hk : event.kind ∉ repo.syncEventKinds)
    (hne : oldId ≠ "") :
    replace repo engine event (some oldId)
      = Except.ok ⟨[EngineCall.deleteDocuments [oldId]],
          logsOf engine.deleteResult⟩ := by
  have ha := add_not_synced repo engine event hk
  have hd := deleteMany_enabled repo engine [oldId] hi
  have ht := truthyStr_of_ne oldId hne
  simp [replace, hi, ha, hd, ht]

/-- C10 witness: replacing with a kind-5 event (outside allow-list `[1]`)
and the non-empty old id `"old2"` issues exactly the delete of the old id. -/
theorem replace_kind_outside_allowlist_witness :
    replace repoOn engineOk sampleEventKind5 (some "old2")
      = Except.ok ⟨[EngineCall.deleteDocuments ["old2"]], []⟩ :=
  replace_kind_outside_allowlist repoOn engineOk sampleEventKind5 "old2" rfl
    (by decide) (by decide)
